import Mathlib

/-!
Shallow embedding of `src/manage_custom_modes.py` (class `CustomModesManager`)
and verification of the specified data-access and mutation contract.

The stored state is the single `ItemTable` row at the fixed key `modes_key`.
It is modeled as `Store := Option JVal`: `none` when the key is absent from
the table, `some doc` when the key is present and holds the parsed JSON value
`doc`.  JSON serialization is not modeled: the embedding works on parsed JSON
values (the program re-serializes the whole parsed document on save, so the
stored value is determined by the parsed document).  JSON numbers are modeled
as integers: the mode schema only uses integers and booleans, and the program
never performs arithmetic on stored numbers.  Console printing is unmodeled
I/O; each distinct print-and-return site of a mutating operation is modeled
by a distinct result constructor.
-/

set_option linter.unusedVariables false

namespace ManageCustomModes

/-- Parsed JSON values, as produced by `json.loads`.  Objects are association
lists in insertion order (Python dicts preserve insertion order, and
`json.loads` yields unique keys). -/
inductive JVal where
  | jnull : JVal
  | jbool : Bool → JVal
  | jnum : Int → JVal
  | jstr : String → JVal
  | jarr : List JVal → JVal
  | jobj : List (String × JVal) → JVal
deriving Repr

/-- One JSON object, as a key/value association list. -/
abbrev JObj := List (String × JVal)

/-- Python `d.get(k)`: the value at key `k`, or `none` when the key is absent. -/
def jget (o : JObj) (k : String) : Option JVal :=
  (o.find? (fun p => p.1 == k)).map (fun p => p.2)

/-- Python `d.get(k, default)`. -/
def jgetD (o : JObj) (k : String) (d : JVal) : JVal :=
  (jget o k).getD d

/-- Python `d[k] = v`: replaces the value at `k` in place (the key keeps its
position), or appends the new key at the end. -/
def jset (o : JObj) (k : String) (v : JVal) : JObj :=
  match o with
  | [] => [(k, v)]
  | (k2, w) :: rest => if k2 == k then (k2, v) :: rest else (k2, w) :: jset rest k v

/-- Python truthiness of a JSON value, for the `if not composer_state` and
`if not mode["id"]` tests. -/
def pyTruthy : JVal → Bool
  | .jnull => false
  | .jbool b => b
  | .jnum n => n != 0
  | .jstr s => s != ""
  | .jarr xs => !xs.isEmpty
  | .jobj fs => !fs.isEmpty

mutual

/-- Python `==` on JSON values: `None` equals only itself, booleans compare
equal to the integers 0/1 (`bool` is an `int` subtype), lists compare
elementwise, dicts compare by key set and per-key values (order-insensitive;
keys are unique here). -/
def pyEq : JVal → JVal → Bool
  | .jnull, .jnull => true
  | .jbool a, .jbool b => a == b
  | .jbool a, .jnum n => (if a then (1 : Int) else 0) == n
  | .jnum n, .jbool a => n == (if a then (1 : Int) else 0)
  | .jnum a, .jnum b => a == b
  | .jstr a, .jstr b => a == b
  | .jarr xs, .jarr ys => pyEqList xs ys
  | .jobj xs, .jobj ys => pyEqSub xs ys && ys.all (fun q => xs.any (fun p => p.1 == q.1))
  | _, _ => false

/-- Elementwise Python `==` on JSON arrays of equal length. -/
def pyEqList : List JVal → List JVal → Bool
  | [], [] => true
  | x :: xs, y :: ys => pyEq x y && pyEqList xs ys
  | _, _ => false

/-- Every key of the first object is present in the second with a
Python-equal value. -/
def pyEqSub : List (String × JVal) → List (String × JVal) → Bool
  | [], _ => true
  | (k, v) :: xs, ys => pyEqMem k v ys && pyEqSub xs ys

/-- The object contains key `k` with a value Python-equal to `v`. -/
def pyEqMem : String → JVal → List (String × JVal) → Bool
  | _, _, [] => false
  | k, v, (k2, v2) :: ys => if k == k2 then pyEq v v2 else pyEqMem k v ys

end

/-- The fixed `ItemTable` key the manager reads and updates (line 27 of the
source). -/
def modes_key : String :=
  "src.vs.platform.reactivestorage.browser.reactiveStorageServiceImpl.persistentStorage.applicationUser"

/-- The stored row at `modes_key`: `none` when the key is absent from the
key-value table, `some doc` when it is present with parsed JSON value `doc`. -/
abbrev Store := Option JVal

/-- `_get_composer_state` (lines 68-87): point lookup of the row, then
`data.get("composerState", {})`.  Returns `None` both when the key is missing
and when an exception is caught; the modeled exception case is a document
that is not a JSON object, on which `.get` raises. -/
def get_composer_state : Store → Option JVal
  | some (.jobj fs) => some (jgetD fs "composerState" (.jobj []))
  | some _ => none
  | none => none

/-- `_save_composer_state` (lines 89-120): re-reads the current row, sets
`data["composerState"] = composer_state`, and writes the re-serialized
document back with a single UPDATE.  Returns the reported success flag and
the row after the call.  When the key is missing (lines 114-117), or item
assignment raises on a non-object document, nothing is written. -/
def save_composer_state (st : Store) (cs : JVal) : Bool × Store :=
  match st with
  | some (.jobj fs) => (true, some (.jobj (jset fs "composerState" cs)))
  | some _ => (false, st)
  | none => (false, st)

/-- `composer_state.get("modes4", [])` (lines 128, 173, 223, 261).  Within
the well-formed stores every theorem below assumes (an object composer state
whose `modes4` field, when present, is an array), this agrees with Python.
Outside that domain Python raises (`.get` on a non-dict) or misiterates a
non-list value — uncaught in `list_modes`, `get_mode` and `delete_mode`,
caught with a False return in `import_mode` — while this total function
returns `[]`; no theorem below relies on that branch. -/
def getModes (cs : JVal) : List JVal :=
  match cs with
  | .jobj fs =>
    match jgetD fs "modes4" (.jarr []) with
    | .jarr xs => xs
    | _ => []
  | _ => []

/-- `composer_state["modes4"] = modes` (lines 238, 270).  On a non-object
composer state Python would have raised earlier; that branch is dead in the
well-formed domain and returns the value unchanged. -/
def setModes (cs : JVal) (modes : List JVal) : JVal :=
  match cs with
  | .jobj fs => .jobj (jset fs "modes4" (.jarr modes))
  | v => v

/-- `mode.get(k)` on one element of the mode list.  Within the well-formed
domain every mode is a JSON object; `.get` on anything else raises in Python. -/
def mget (m : JVal) (k : String) : Option JVal :=
  match m with
  | .jobj fs => jget fs k
  | _ => none

/-- The hardcoded built-in mode ids (lines 132 and 252). -/
def builtin_ids : List String := ["agent", "plan", "background", "chat", "spec", "debug"]

/-- `mode_id in builtin_ids` where the left operand is the JSON value
`mode.get("id", "")`: only an equal string is a member. -/
def isBuiltinVal : JVal → Bool
  | .jstr s => builtin_ids.contains s
  | _ => false

/-- `list_modes` (lines 122-165): the returned list `result` (printing is
unmodeled I/O).  A mode is skipped exactly when `show_builtin` is false and
`mode.get("id", "")` is a built-in id (lines 136-140). -/
def list_modes (st : Store) (show_builtin : Bool) : List JVal :=
  match get_composer_state st with
  | none => []
  | some cs =>
    if pyTruthy cs then
      (getModes cs).filter (fun mode =>
        !(!show_builtin && isBuiltinVal ((mget mode "id").getD (.jstr ""))))
    else []

/-- `get_mode` (lines 167-177): linear scan, first mode with
`mode.get("id") == mode_id`. -/
def get_mode (st : Store) (mode_id : String) : Option JVal :=
  match get_composer_state st with
  | none => none
  | some cs =>
    if pyTruthy cs then
      (getModes cs).find? (fun mode => pyEq ((mget mode "id").getD .jnull) (.jstr mode_id))
    else none

/-- `export_mode` (lines 179-193): looks the mode up and writes it to the
output file as pretty-printed JSON.  The modeled result is the JSON value
written: `none` when the mode is not found and nothing is written (file I/O
failures are environmental and unmodeled). -/
def export_mode (st : Store) (mode_id : String) : Option JVal :=
  get_mode st mode_id

/-- The required fields checked by `import_mode` (lines 209-211); `id` is not
in this list because lines 201-206 have already forced it to be present. -/
def required_fields : List String :=
  ["name", "icon", "thinkingLevel", "autoRun", "shouldAutoApplyIfNoEditTool",
   "enabledTools", "autoFix", "enabledMcpServers"]

/-- The first required field with `field not in mode` (lines 213-216); a
field present with value `null` counts as present. -/
def firstMissing (m : JObj) : Option String :=
  required_fields.find? (fun f => (jget m f).isNone)

/-- Lines 204-206: `elif "id" not in mode or not mode["id"]`, then
`mode["id"] = str(uuid.uuid4())`.  The generated uuid4 string is passed in
as `fresh`. -/
def autoFreshId (m0 : JObj) (fresh : String) : JObj :=
  match jget m0 "id" with
  | none => jset m0 "id" (.jstr fresh)
  | some v => if pyTruthy v then m0 else jset m0 "id" (.jstr fresh)

/-- Lines 201-206: `if mode_id:` forces the id to the override when the
override is a truthy (non-empty) string; otherwise fall through to the
fresh-id branch. -/
def resolveModeId (m0 : JObj) (mode_id : Option String) (fresh : String) : JObj :=
  match mode_id with
  | some i => if i == "" then autoFreshId m0 fresh else jset m0 "id" (.jstr i)
  | none => autoFreshId m0 fresh

/-- Lines 226-230: index of the first mode with `m.get("id") == mode["id"]`
(`enumerate` with `break`). -/
def findModeIdx (mid : JVal) : List JVal → Option Nat
  | [] => none
  | mm :: rest =>
    if pyEq ((mget mm "id").getD .jnull) mid then some 0
    else (findModeIdx mid rest).map (fun n => n + 1)

/-- Outcome of `import_mode`, one constructor per distinct return site. -/
inductive ImportResult where
  /-- Lines 213-216: a required field is missing; carries the field named in
  the printed message. -/
  | missingField (field : String)
  /-- Lines 219-221: `_get_composer_state` produced nothing truthy. -/
  | noDocument
  /-- Lines 240-242: the document was saved; `replaced` is true when an
  existing entry with the same id was overwritten (line 234) and false when
  the mode was appended (line 236). -/
  | ok (replaced : Bool)
  /-- Line 243: `_save_composer_state` reported failure. -/
  | saveFailed
  /-- Lines 245-247: a caught exception, e.g. the input file's JSON value is
  not an object. -/
  | importError
deriving Repr, DecidableEq

/-- `import_mode` (lines 195-247).  `src` is the parsed JSON value of the
input file, `mode_id` the optional id override (`none` when not given; the
empty string is falsy at line 202 and behaves like `none`), `fresh` the
uuid4 string that would be generated at line 206.  Returns the outcome and
the row after the call.  `mode["id"]` at line 228 is total here because id
resolution always leaves an `id` key. -/
def import_mode (st : Store) (src : JVal) (mode_id : Option String) (fresh : String) :
    ImportResult × Store :=
  match src with
  | .jobj m0 =>
    let m := resolveModeId m0 mode_id fresh
    match firstMissing m with
    | some f => (.missingField f, st)
    | none =>
      match get_composer_state st with
      | none => (.noDocument, st)
      | some cs =>
        if pyTruthy cs then
          let modes := getModes cs
          let mid := jgetD m "id" .jnull
          match findModeIdx mid modes with
          | some idx =>
            match save_composer_state st (setModes cs (modes.set idx (.jobj m))) with
            | (true, st2) => (.ok true, st2)
            | (false, st2) => (.saveFailed, st2)
          | none =>
            match save_composer_state st (setModes cs (modes ++ [.jobj m])) with
            | (true, st2) => (.ok false, st2)
            | (false, st2) => (.saveFailed, st2)
        else (.noDocument, st)
  | _ => (.importError, st)

/-- Outcome of `delete_mode`, one constructor per distinct return site. -/
inductive DeleteResult where
  /-- Lines 252-255: the id is in the built-in list. -/
  | builtinProtected
  /-- Lines 257-259: `_get_composer_state` produced nothing truthy. -/
  | noDocument
  /-- Lines 266-268: the filter removed nothing. -/
  | notFound
  /-- Lines 272-274: the filtered list was saved. -/
  | ok
  /-- Line 275: `_save_composer_state` reported failure. -/
  | saveFailed
deriving Repr, DecidableEq

/-- `delete_mode` (lines 249-275). -/
def delete_mode (st : Store) (mode_id : String) : DeleteResult × Store :=
  if builtin_ids.contains mode_id then (.builtinProtected, st)
  else
    match get_composer_state st with
    | none => (.noDocument, st)
    | some cs =>
      if pyTruthy cs then
        let modes := getModes cs
        let new_modes := modes.filter (fun m => !pyEq ((mget m "id").getD .jnull) (.jstr mode_id))
        if new_modes.length == modes.length then (.notFound, st)
        else
          match save_composer_state st (setModes cs new_modes) with
          | (true, st2) => (.ok, st2)
          | (false, st2) => (.saveFailed, st2)
      else (.noDocument, st)

/-- True exactly on the success outcome of an import. -/
def ImportResult.isOk : ImportResult → Bool
  | .ok _ => true
  | _ => false

/-- True exactly on the success outcome of a delete. -/
def DeleteResult.isOk : DeleteResult → Bool
  | .ok => true
  | _ => false

/-- Spec-side predicate: the mode is a JSON object. -/
def isJObj : JVal → Bool
  | .jobj _ => true
  | _ => false

/-- Spec-side predicate: the mode's `id` field holds exactly the string `i`. -/
def hasIdStr (i : String) (m : JVal) : Bool :=
  match mget m "id" with
  | some (.jstr s) => s == i
  | _ => false

/-- Spec-side predicate: the mode's id is one of the six built-in
identifiers (a mode without a string id is not built-in). -/
def hasBuiltinId (m : JVal) : Bool :=
  match mget m "id" with
  | some (.jstr s) => builtin_ids.contains s
  | _ => false

/-- Spec-side index of the first element of a list satisfying a predicate. -/
def firstIdx (p : JVal → Bool) : List JVal → Option Nat
  | [] => none
  | x :: xs => if p x then some 0 else (firstIdx p xs).map (fun n => n + 1)

/-- A built-in mode entry, used by the concrete witnesses below. -/
def mAgent : JVal :=
  .jobj [("id", .jstr "agent"), ("name", .jstr "Agent")]

/-- A fully populated custom mode, used by the concrete witnesses below. -/
def mC1 : JVal :=
  .jobj [("id", .jstr "c1"), ("name", .jstr "Foo"), ("icon", .jstr "infinity"),
    ("thinkingLevel", .jstr "none"), ("autoRun", .jbool false),
    ("shouldAutoApplyIfNoEditTool", .jbool true),
    ("enabledTools", .jarr [.jnum 1, .jnum 3]), ("autoFix", .jbool true),
    ("enabledMcpServers", .jarr [])]

/-- A composer state with two modes and an unrelated nested field, used by
the concrete witnesses below. -/
def sampleCfs : JObj :=
  [("modes4", .jarr [mAgent, mC1]), ("otherNested", .jnum 5)]

/-- A document with an unrelated top-level field and the composer state,
used by the concrete witnesses below. -/
def sampleFs : JObj :=
  [("topField", .jstr "keep"), ("composerState", .jobj sampleCfs)]

/-- The store holding `sampleFs`, used by the concrete witnesses below. -/
def sampleSt : Store := some (.jobj sampleFs)

theorem jget_cons (k2 : String) (w : JVal) (rest : JObj) (k : String) :
    jget ((k2, w) :: rest) k = if k2 == k then some w else jget rest k := by
  simp only [jget, List.find?_cons]
  by_cases h : k2 == k <;> simp [h]

theorem jget_jset_self (o : JObj) (k : String) (v : JVal) :
    jget (jset o k v) k = some v := by
  induction o with
  | nil => simp [jset, jget, List.find?]
  | cons p rest ih =>
    obtain ⟨k2, w⟩ := p
    by_cases h : k2 == k
    · simp [jset, h, jget_cons]
    · simp [jset, h, jget_cons, ih]

theorem jget_jset_ne {o : JObj} {k k' : String} (h : k' ≠ k) (v : JVal) :
    jget (jset o k v) k' = jget o k' := by
  induction o with
  | nil =>
    have hk : (k == k') = false := by
      simp [beq_eq_false_iff_ne]
      exact fun he => h he.symm
    simp [jset, jget, List.find?, hk]
  | cons p rest ih =>
    obtain ⟨k2, w⟩ := p
    by_cases h2 : k2 == k
    · have hk2 : k2 = k := by simpa [beq_iff_eq] using h2
      subst hk2
      have hk : (k2 == k') = false := by
        simp [beq_eq_false_iff_ne]
        exact fun he => h he.symm
      simp [jset, jget_cons, hk]
    · simp [jset, h2, jget_cons, ih]

theorem jset_eq_self {o : JObj} {k : String} {v : JVal} (h : jget o k = some v) :
    jset o k v = o := by
  induction o with
  | nil => simp [jget, List.find?] at h
  | cons p rest ih =>
    obtain ⟨k2, w⟩ := p
    by_cases h2 : k2 == k
    · rw [jget_cons] at h
      simp [h2] at h
      simp [jset, h2, h]
    · rw [jget_cons] at h
      simp [h2] at h
      simp [jset, h2, ih h]

theorem jget_nil_ne_some {k : String} {v : JVal} : jget [] k ≠ some v := by
  simp [jget, List.find?]

theorem pyTruthy_of_jget {o : JObj} {k : String} {v : JVal} (h : jget o k = some v) :
    pyTruthy (.jobj o) = true := by
  cases o with
  | nil => exact absurd h jget_nil_ne_some
  | cons p rest => simp [pyTruthy]

theorem pyEq_jstr_iff (v : JVal) (s : String) : pyEq v (.jstr s) = true ↔ v = .jstr s := by
  cases v <;> simp [pyEq]

theorem pyEq_id_eq_hasIdStr (i : String) (m : JVal) :
    pyEq ((mget m "id").getD .jnull) (.jstr i) = hasIdStr i m := by
  cases m <;> simp only [mget, hasIdStr, Option.getD]
  case jobj fs =>
    cases h : jget fs "id" with
    | none => simp [pyEq]
    | some v => cases v <;> simp [pyEq]
  all_goals simp [pyEq]

theorem isBuiltinVal_eq_hasBuiltinId (m : JVal) :
    isBuiltinVal ((mget m "id").getD (.jstr "")) = hasBuiltinId m := by
  cases m <;> simp only [mget, hasBuiltinId, Option.getD]
  case jobj fs =>
    cases h : jget fs "id" with
    | none => simp [isBuiltinVal, builtin_ids]
    | some v => cases v <;> simp [isBuiltinVal]
  all_goals simp [isBuiltinVal, builtin_ids]

theorem findModeIdx_eq_firstIdx (s : String) (l : List JVal) :
    findModeIdx (.jstr s) l = firstIdx (hasIdStr s) l := by
  induction l with
  | nil => simp [findModeIdx, firstIdx]
  | cons x xs ih =>
    simp only [findModeIdx, firstIdx, pyEq_id_eq_hasIdStr, ih]

theorem firstIdx_eq_none {p : JVal → Bool} {l : List JVal}
    (h : ∀ x ∈ l, p x = false) : firstIdx p l = none := by
  induction l with
  | nil => rfl
  | cons x xs ih =>
    have hx : p x = false := h x (List.mem_cons_self x xs)
    simp [firstIdx, hx, ih fun y hy => h y (List.mem_cons_of_mem x hy)]

theorem find?_firstIdx_set {p : JVal → Bool} {l : List JVal} {x : JVal}
    (h : l.find? p = some x) :
    ∃ idx, firstIdx p l = some idx ∧ l.set idx x = l := by
  induction l with
  | nil => simp [List.find?] at h
  | cons a t ih =>
    by_cases ha : p a
    · rw [List.find?_cons_of_pos t ha] at h
      refine ⟨0, by simp [firstIdx, ha], ?_⟩
      simp [List.set]
      exact (Option.some_injective _ h).symm
    · rw [List.find?_cons_of_neg t ha] at h
      obtain ⟨idx, h1, h2⟩ := ih h
      refine ⟨idx + 1, by simp [firstIdx, ha, h1], ?_⟩
      simp [List.set, h2]

theorem get_composer_state_eq {fs cfs : JObj}
    (hcs : jget fs "composerState" = some (.jobj cfs)) :
    get_composer_state (some (.jobj fs)) = some (.jobj cfs) := by
  simp [get_composer_state, jgetD, hcs]

theorem getModes_eq {cfs : JObj} {ms : List JVal}
    (hms : jget cfs "modes4" = some (.jarr ms)) :
    getModes (.jobj cfs) = ms := by
  simp [getModes, jgetD, hms]

theorem list_modes_eq {fs cfs : JObj} {ms : List JVal} (b : Bool)
    (hcs : jget fs "composerState" = some (.jobj cfs))
    (hms : jget cfs "modes4" = some (.jarr ms)) :
    list_modes (some (.jobj fs)) b = ms.filter (fun m => !(!b && hasBuiltinId m)) := by
  rw [list_modes, get_composer_state_eq hcs]
  simp only [pyTruthy_of_jget hms, if_true, getModes_eq hms, isBuiltinVal_eq_hasBuiltinId]

theorem get_mode_eq {fs cfs : JObj} {ms : List JVal} (i : String)
    (hcs : jget fs "composerState" = some (.jobj cfs))
    (hms : jget cfs "modes4" = some (.jarr ms)) :
    get_mode (some (.jobj fs)) i = ms.find? (hasIdStr i) := by
  rw [get_mode, get_composer_state_eq hcs]
  simp only [pyTruthy_of_jget hms, if_true, getModes_eq hms, pyEq_id_eq_hasIdStr]

theorem import_mode_eq {fs cfs : JObj} {ms : List JVal} {m0 : JObj}
    {o : Option String} {fr : String}
    (hcs : jget fs "composerState" = some (.jobj cfs))
    (hms : jget cfs "modes4" = some (.jarr ms))
    (hval : firstMissing (resolveModeId m0 o fr) = none) :
    import_mode (some (.jobj fs)) (.jobj m0) o fr =
      match findModeIdx (jgetD (resolveModeId m0 o fr) "id" .jnull) ms with
      | some idx =>
        (.ok true, some (.jobj (jset fs "composerState"
          (.jobj (jset cfs "modes4" (.jarr (ms.set idx (.jobj (resolveModeId m0 o fr)))))))))
      | none =>
        (.ok false, some (.jobj (jset fs "composerState"
          (.jobj (jset cfs "modes4" (.jarr (ms ++ [JVal.jobj (resolveModeId m0 o fr)]))))))) := by
  rw [import_mode]
  simp only [hval, get_composer_state_eq hcs, pyTruthy_of_jget hms, if_true,
    getModes_eq hms, setModes, save_composer_state]

theorem delete_mode_eq {fs cfs : JObj} {ms : List JVal} {i : String}
    (hb : builtin_ids.contains i = false)
    (hcs : jget fs "composerState" = some (.jobj cfs))
    (hms : jget cfs "modes4" = some (.jarr ms)) :
    delete_mode (some (.jobj fs)) i =
      if (ms.filter (fun m => !(hasIdStr i m))).length = ms.length then
        (.notFound, some (.jobj fs))
      else
        (.ok, some (.jobj (jset fs "composerState"
          (.jobj (jset cfs "modes4"
            (.jarr (ms.filter (fun m => !(hasIdStr i m))))))))) := by
  rw [delete_mode]
  simp only [hb, Bool.false_eq_true, if_false, get_composer_state_eq hcs,
    pyTruthy_of_jget hms, if_true, getModes_eq hms, pyEq_id_eq_hasIdStr,
    setModes, save_composer_state, beq_iff_eq]

theorem find?_string_congr {p q : String → Bool} {l : List String}
    (h : ∀ x ∈ l, p x = q x) : l.find? p = l.find? q := by
  induction l with
  | nil => rfl
  | cons a t ih =>
    rw [List.find?_cons, List.find?_cons, h a (List.mem_cons_self a t)]
    cases q a
    · exact ih fun x hx => h x (List.mem_cons_of_mem a hx)
    · rfl

theorem firstMissing_jset_id (o : JObj) (v : JVal) :
    firstMissing (jset o "id" v) = firstMissing o := by
  unfold firstMissing
  apply find?_string_congr
  intro x hx
  have hall : ∀ y ∈ required_fields, y ≠ "id" := by decide
  rw [jget_jset_ne (hall x hx)]

theorem autoFreshId_id (m0 : JObj) (fr : String) :
    ∃ v, jget (autoFreshId m0 fr) "id" = some v := by
  unfold autoFreshId
  cases h : jget m0 "id" with
  | none => exact ⟨_, jget_jset_self _ _ _⟩
  | some v =>
    by_cases hv : pyTruthy v
    · simp only [hv, if_true]
      exact ⟨v, h⟩
    · simp only [hv, Bool.false_eq_true, if_false]
      exact ⟨_, jget_jset_self _ _ _⟩

theorem resolveModeId_id (m0 : JObj) (o : Option String) (fr : String) :
    ∃ v, jget (resolveModeId m0 o fr) "id" = some v := by
  unfold resolveModeId
  cases o with
  | none => exact autoFreshId_id m0 fr
  | some s =>
    by_cases hs : s == ""
    · simp only [hs, if_true]
      exact autoFreshId_id m0 fr
    · simp only [hs, Bool.false_eq_true, if_false]
      exact ⟨_, jget_jset_self _ _ _⟩

theorem hasIdStr_jobj_iff {i : String} {mfs : JObj} :
    hasIdStr i (.jobj mfs) = true ↔ jget mfs "id" = some (.jstr i) := by
  cases h : jget mfs "id" with
  | none => simp [hasIdStr, mget, h]
  | some v => cases v <;> simp [hasIdStr, mget, h, beq_iff_eq]

/-- C3: for every id in the six-element built-in set and every store content,
`delete_mode` fails with the built-in-protected outcome before the document
is loaded (the result does not depend on the store at all, so the check is
independent of whether a mode with that id exists), and the store is left
unmodified. -/
theorem delete_builtin_protected (i : String) (hb : i ∈ builtin_ids) :
    ∀ st : Store, delete_mode st i = (.builtinProtected, st) := by
  intro st
  have hc : builtin_ids.contains i = true := List.elem_iff.mpr hb
  rw [delete_mode, if_pos hc]

/-- Witness for C3: deleting "agent" from a store that does contain a mode
with id "agent" is refused and leaves the store unchanged. -/
theorem delete_builtin_protected_w :
    "agent" ∈ builtin_ids ∧
      delete_mode sampleSt "agent" = (.builtinProtected, sampleSt) :=
  ⟨by decide, delete_builtin_protected "agent" (by decide) sampleSt⟩

/-- C5: when the fixed key is absent from the key-value table, load-document
returns absence; list and get then behave as over an empty mode list, and
the two write operations fail (for every input) with the row still absent,
so no write occurs. -/
theorem missing_key_policy :
    get_composer_state none = none ∧
    (∀ b, list_modes none b = []) ∧
    (∀ i, get_mode none i = none) ∧
    (∀ i, export_mode none i = none) ∧
    (∀ src o fr, (import_mode none src o fr).2 = none ∧
      ((import_mode none src o fr).1).isOk = false) ∧
    (∀ i, (delete_mode none i).2 = none ∧ ((delete_mode none i).1).isOk = false) := by
  refine ⟨rfl, fun b => rfl, fun i => rfl, fun i => rfl, ?_, ?_⟩
  · intro src o fr
    cases src with
    | jobj m0 =>
      rw [import_mode]
      cases h : firstMissing (resolveModeId m0 o fr) <;>
        simp [h, get_composer_state, ImportResult.isOk]
    | jnull => simp [import_mode, ImportResult.isOk]
    | jbool b => simp [import_mode, ImportResult.isOk]
    | jnum n => simp [import_mode, ImportResult.isOk]
    | jstr s => simp [import_mode, ImportResult.isOk]
    | jarr xs => simp [import_mode, ImportResult.isOk]
  · intro i
    rw [delete_mode]
    split
    · simp [DeleteResult.isOk]
    · simp [get_composer_state, DeleteResult.isOk]

/-- C8: for a document whose mode list is `ms`, listing with built-ins
returns all of `ms` in order, and listing without built-ins returns exactly
the subsequence of `ms` whose id is not in the built-in set (the store is
never written: `list_modes` is a pure read in the embedding). -/
theorem list_modes_order_and_filter (fs cfs : JObj) (ms : List JVal)
    (hcs : jget fs "composerState" = some (.jobj cfs))
    (hms : jget cfs "modes4" = some (.jarr ms))
    (hwf : ms.all isJObj = true) :
    list_modes (some (.jobj fs)) true = ms ∧
    list_modes (some (.jobj fs)) false = ms.filter (fun m => !(hasBuiltinId m)) := by
  constructor
  · rw [list_modes_eq true hcs hms]
    simp
  · rw [list_modes_eq false hcs hms]
    simp

/-- Witness for C8 on the two-mode sample store. -/
theorem list_modes_order_and_filter_w :
    (jget sampleFs "composerState" = some (.jobj sampleCfs) ∧
      jget sampleCfs "modes4" = some (.jarr [mAgent, mC1]) ∧
      ([mAgent, mC1].all isJObj) = true) ∧
    list_modes sampleSt true = [mAgent, mC1] ∧
    list_modes sampleSt false = [mC1] := by
  have h := list_modes_order_and_filter sampleFs sampleCfs [mAgent, mC1] rfl rfl rfl
  exact ⟨⟨rfl, rfl, rfl⟩, h.1, h.2.trans rfl⟩

/-- C9: for every mode list (duplicate ids included) and every id argument,
`get_mode` returns the first mode in list order whose id equals the
argument, and not-found exactly when no mode's id equals it. -/
theorem get_mode_first_match (fs cfs : JObj) (ms : List JVal) (i : String)
    (hcs : jget fs "composerState" = some (.jobj cfs))
    (hms : jget cfs "modes4" = some (.jarr ms))
    (hwf : ms.all isJObj = true) :
    get_mode (some (.jobj fs)) i = ms.find? (hasIdStr i) ∧
    (get_mode (some (.jobj fs)) i = none ↔ ∀ m ∈ ms, hasIdStr i m = false) := by
  have h := get_mode_eq i hcs hms
  refine ⟨h, ?_⟩
  rw [h, List.find?_eq_none]
  simp

/-- Witness for C9 on a store with a duplicated id: the first match wins. -/
theorem get_mode_first_match_w :
    (jget [("composerState", JVal.jobj [("modes4",
        JVal.jarr [mC1, mAgent, .jobj [("id", .jstr "c1"), ("name", .jstr "Dup")]])])]
      "composerState" = some (.jobj [("modes4",
        .jarr [mC1, mAgent, .jobj [("id", .jstr "c1"), ("name", .jstr "Dup")]])]) ∧
      ([mC1, mAgent, .jobj [("id", .jstr "c1"), ("name", .jstr "Dup")]].all isJObj) = true) ∧
    get_mode (some (.jobj [("composerState", .jobj [("modes4",
        .jarr [mC1, mAgent, .jobj [("id", .jstr "c1"), ("name", .jstr "Dup")]])])])) "c1" =
      some mC1 := by
  have h := get_mode_first_match
    [("composerState", JVal.jobj [("modes4",
      JVal.jarr [mC1, mAgent, .jobj [("id", .jstr "c1"), ("name", .jstr "Dup")]])])]
    [("modes4", JVal.jarr [mC1, mAgent, .jobj [("id", .jstr "c1"), ("name", .jstr "Dup")]])]
    [mC1, mAgent, .jobj [("id", .jstr "c1"), ("name", .jstr "Dup")]]
    "c1" rfl rfl rfl
  exact ⟨⟨rfl, rfl⟩, h.1.trans rfl⟩

/-- C2: for every import source that, after id resolution, is missing at
least one of the nine required fields, the import fails naming a field that
is indeed missing and among the nine, and it does so for every store alike —
the stored document is never loaded, mutated, or written (the store comes
back unchanged whatever it was). -/
theorem import_missing_field_aborts (m0 : JObj) (o : Option String) (fr : String)
    (hmiss : ∃ fd ∈ ("id" :: required_fields), jget (resolveModeId m0 o fr) fd = none) :
    ∃ fd ∈ ("id" :: required_fields),
      jget (resolveModeId m0 o fr) fd = none ∧
      ∀ st : Store, import_mode st (.jobj m0) o fr = (.missingField fd, st) := by
  obtain ⟨fd, hfdmem, hfdnone⟩ := hmiss
  obtain ⟨v, hv⟩ := resolveModeId_id m0 o fr
  have hfdreq : fd ∈ required_fields := by
    rcases List.mem_cons.mp hfdmem with h | h
    · subst h
      rw [hv] at hfdnone
      exact absurd hfdnone (by simp)
    · exact h
  have hsome : (firstMissing (resolveModeId m0 o fr)).isSome = true := by
    rw [firstMissing, List.find?_isSome]
    exact ⟨fd, hfdreq, by rw [hfdnone]; rfl⟩
  obtain ⟨f0, hf0⟩ := Option.isSome_iff_exists.mp hsome
  have hf0' : required_fields.find? (fun f => (jget (resolveModeId m0 o fr) f).isNone) = some f0 := by
    rw [firstMissing] at hf0
    exact hf0
  have hf0req : f0 ∈ required_fields := List.mem_of_find?_eq_some hf0'
  have hf0p := List.find?_some hf0'
  simp only [Option.isNone_iff_eq_none] at hf0p
  have hf0none : jget (resolveModeId m0 o fr) f0 = none := hf0p
  refine ⟨f0, List.mem_cons_of_mem _ hf0req, hf0none, ?_⟩
  intro st
  rw [import_mode]
  simp [hf0]

/-- Witness for C2: importing the empty JSON object (with auto-generated id)
fails naming a missing required field, with the store untouched. -/
theorem import_missing_field_aborts_w :
    (∃ fd ∈ ("id" :: required_fields), jget (resolveModeId [] none "u") fd = none) ∧
    (∃ fd ∈ ("id" :: required_fields),
      jget (resolveModeId [] none "u") fd = none ∧
      ∀ st : Store, import_mode st (.jobj []) none "u" = (.missingField fd, st)) :=
  ⟨⟨"name", by decide, rfl⟩,
    import_missing_field_aborts [] none "u" ⟨"name", by decide, rfl⟩⟩

/-- C4: a valid import whose resolved id equals the id of an existing entry
replaces the first such entry at its position, leaving the length and every
other position unchanged; a valid import whose resolved id matches no entry
appends at the end, growing the length by one and keeping every existing
position. -/
theorem import_replace_or_append (fs cfs : JObj) (ms : List JVal) (m0 : JObj)
    (o : Option String) (fr s : String)
    (hcs : jget fs "composerState" = some (.jobj cfs))
    (hms : jget cfs "modes4" = some (.jarr ms))
    (hwf : ms.all isJObj = true)
    (hid : jget (resolveModeId m0 o fr) "id" = some (.jstr s))
    (hval : firstMissing (resolveModeId m0 o fr) = none) :
    (∀ idx, firstIdx (hasIdStr s) ms = some idx →
      import_mode (some (.jobj fs)) (.jobj m0) o fr =
        (.ok true, some (.jobj (jset fs "composerState" (.jobj (jset cfs "modes4"
          (.jarr (ms.set idx (.jobj (resolveModeId m0 o fr))))))))) ∧
      (ms.set idx (.jobj (resolveModeId m0 o fr))).length = ms.length ∧
      ∀ j, j ≠ idx → (ms.set idx (.jobj (resolveModeId m0 o fr)))[j]? = ms[j]?) ∧
    (firstIdx (hasIdStr s) ms = none →
      import_mode (some (.jobj fs)) (.jobj m0) o fr =
        (.ok false, some (.jobj (jset fs "composerState" (.jobj (jset cfs "modes4"
          (.jarr (ms ++ [JVal.jobj (resolveModeId m0 o fr)]))))))) ∧
      (ms ++ [JVal.jobj (resolveModeId m0 o fr)]).length = ms.length + 1 ∧
      ∀ j, j < ms.length → (ms ++ [JVal.jobj (resolveModeId m0 o fr)])[j]? = ms[j]?) := by
  have him := import_mode_eq hcs hms hval
  have hmid : jgetD (resolveModeId m0 o fr) "id" .jnull = .jstr s := by
    rw [jgetD, hid]
    rfl
  rw [hmid, findModeIdx_eq_firstIdx] at him
  constructor
  · intro idx hidx
    rw [hidx] at him
    exact ⟨him, List.length_set ms idx _, fun j hj => List.getElem?_set_ne (Ne.symm hj)⟩
  · intro hnone
    rw [hnone] at him
    exact ⟨him, by simp, fun j hj => List.getElem?_append_left hj⟩

/-- Witness for C4: importing a fresh-id mode appends to the sample store. -/
theorem import_replace_or_append_w :
    (jget sampleFs "composerState" = some (.jobj sampleCfs) ∧
      jget sampleCfs "modes4" = some (.jarr [mAgent, mC1]) ∧
      ([mAgent, mC1].all isJObj) = true ∧
      jget (resolveModeId [("name", .jstr "N"), ("icon", .jstr "I"),
        ("thinkingLevel", .jstr "none"), ("autoRun", .jbool false),
        ("shouldAutoApplyIfNoEditTool", .jbool true), ("enabledTools", .jarr []),
        ("autoFix", .jbool false), ("enabledMcpServers", .jarr [])] none "u2")
        "id" = some (.jstr "u2") ∧
      firstMissing (resolveModeId [("name", .jstr "N"), ("icon", .jstr "I"),
        ("thinkingLevel", .jstr "none"), ("autoRun", .jbool false),
        ("shouldAutoApplyIfNoEditTool", .jbool true), ("enabledTools", .jarr []),
        ("autoFix", .jbool false), ("enabledMcpServers", .jarr [])] none "u2") = none ∧
      firstIdx (hasIdStr "u2") [mAgent, mC1] = none) ∧
    import_mode sampleSt (.jobj [("name", .jstr "N"), ("icon", .jstr "I"),
        ("thinkingLevel", .jstr "none"), ("autoRun", .jbool false),
        ("shouldAutoApplyIfNoEditTool", .jbool true), ("enabledTools", .jarr []),
        ("autoFix", .jbool false), ("enabledMcpServers", .jarr [])]) none "u2" =
      (.ok false, some (.jobj (jset sampleFs "composerState" (.jobj (jset sampleCfs "modes4"
        (.jarr ([mAgent, mC1] ++ [JVal.jobj (resolveModeId [("name", .jstr "N"), ("icon", .jstr "I"),
          ("thinkingLevel", .jstr "none"), ("autoRun", .jbool false),
          ("shouldAutoApplyIfNoEditTool", .jbool true), ("enabledTools", .jarr []),
          ("autoFix", .jbool false), ("enabledMcpServers", .jarr [])] none "u2")]))))))) := by
  have h := import_replace_or_append sampleFs sampleCfs [mAgent, mC1]
    [("name", .jstr "N"), ("icon", .jstr "I"),
      ("thinkingLevel", .jstr "none"), ("autoRun", .jbool false),
      ("shouldAutoApplyIfNoEditTool", .jbool true), ("enabledTools", .jarr []),
      ("autoFix", .jbool false), ("enabledMcpServers", .jarr [])]
    none "u2" "u2" rfl rfl rfl rfl rfl
  exact ⟨⟨rfl, rfl, rfl, rfl, rfl, rfl⟩, (h.2 rfl).1⟩

/-- C10: import applies no built-in-id protection: a validly-shaped import
whose resolved id is a built-in identifier present in the list succeeds and
replaces that entry, instead of being refused the way delete refuses
built-in ids. -/
theorem import_no_builtin_protection (fs cfs : JObj) (ms : List JVal) (m0 : JObj)
    (o : Option String) (fr s : String) (idx : Nat)
    (hb : s ∈ builtin_ids)
    (hcs : jget fs "composerState" = some (.jobj cfs))
    (hms : jget cfs "modes4" = some (.jarr ms))
    (hwf : ms.all isJObj = true)
    (hid : jget (resolveModeId m0 o fr) "id" = some (.jstr s))
    (hval : firstMissing (resolveModeId m0 o fr) = none)
    (hidx : firstIdx (hasIdStr s) ms = some idx) :
    import_mode (some (.jobj fs)) (.jobj m0) o fr =
      (.ok true, some (.jobj (jset fs "composerState" (.jobj (jset cfs "modes4"
        (.jarr (ms.set idx (.jobj (resolveModeId m0 o fr))))))))) ∧
    (import_mode (some (.jobj fs)) (.jobj m0) o fr).1.isOk = true := by
  have him := import_mode_eq hcs hms hval
  have hmid : jgetD (resolveModeId m0 o fr) "id" .jnull = .jstr s := by
    rw [jgetD, hid]
    rfl
  rw [hmid, findModeIdx_eq_firstIdx, hidx] at him
  exact ⟨him, by rw [him]; rfl⟩

/-- Witness for C10: importing a mode with override id "agent" overwrites the
built-in "agent" entry in the sample store. -/
theorem import_no_builtin_protection_w :
    ("agent" ∈ builtin_ids ∧
      jget (resolveModeId [("name", .jstr "N"), ("icon", .jstr "I"),
        ("thinkingLevel", .jstr "none"), ("autoRun", .jbool false),
        ("shouldAutoApplyIfNoEditTool", .jbool true), ("enabledTools", .jarr []),
        ("autoFix", .jbool false), ("enabledMcpServers", .jarr [])]
        (some "agent") "u3") "id" = some (.jstr "agent") ∧
      firstIdx (hasIdStr "agent") [mAgent, mC1] = some 0) ∧
    import_mode sampleSt (.jobj [("name", .jstr "N"), ("icon", .jstr "I"),
        ("thinkingLevel", .jstr "none"), ("autoRun", .jbool false),
        ("shouldAutoApplyIfNoEditTool", .jbool true), ("enabledTools", .jarr []),
        ("autoFix", .jbool false), ("enabledMcpServers", .jarr [])]) (some "agent") "u3" =
      (.ok true, some (.jobj (jset sampleFs "composerState" (.jobj (jset sampleCfs "modes4"
        (.jarr ([mAgent, mC1].set 0 (.jobj (resolveModeId
          [("name", .jstr "N"), ("icon", .jstr "I"),
            ("thinkingLevel", .jstr "none"), ("autoRun", .jbool false),
            ("shouldAutoApplyIfNoEditTool", .jbool true), ("enabledTools", .jarr []),
            ("autoFix", .jbool false), ("enabledMcpServers", .jarr [])]
          (some "agent") "u3")))))))))  := by
  have h := import_no_builtin_protection sampleFs sampleCfs [mAgent, mC1]
    [("name", .jstr "N"), ("icon", .jstr "I"),
      ("thinkingLevel", .jstr "none"), ("autoRun", .jbool false),
      ("shouldAutoApplyIfNoEditTool", .jbool true), ("enabledTools", .jarr []),
      ("autoFix", .jbool false), ("enabledMcpServers", .jarr [])]
    (some "agent") "u3" "agent" 0 (by decide) rfl rfl rfl rfl rfl rfl
  exact ⟨⟨by decide, rfl, rfl⟩, h.1⟩

/-- C7: for a non-built-in id, delete removes exactly the entries with that
id and persists the filtered list when at least one entry matched; when no
entry matches the store is unchanged and not-found is reported — in
particular a second delete of the same id right after a successful one
reports not-found and leaves the new store unchanged. -/
theorem delete_filters_and_idempotent (fs cfs : JObj) (ms : List JVal) (i : String)
    (hb : builtin_ids.contains i = false)
    (hcs : jget fs "composerState" = some (.jobj cfs))
    (hms : jget cfs "modes4" = some (.jarr ms))
    (hwf : ms.all isJObj = true) :
    ((ms.filter (fun m => !(hasIdStr i m))).length = ms.length →
      delete_mode (some (.jobj fs)) i = (.notFound, some (.jobj fs))) ∧
    ((ms.filter (fun m => !(hasIdStr i m))).length ≠ ms.length →
      delete_mode (some (.jobj fs)) i =
        (.ok, some (.jobj (jset fs "composerState" (.jobj (jset cfs "modes4"
          (.jarr (ms.filter (fun m => !(hasIdStr i m))))))))) ∧
      (∀ m ∈ ms.filter (fun m => !(hasIdStr i m)), hasIdStr i m = false) ∧
      delete_mode (some (.jobj (jset fs "composerState" (.jobj (jset cfs "modes4"
          (.jarr (ms.filter (fun m => !(hasIdStr i m))))))))) i =
        (.notFound, some (.jobj (jset fs "composerState" (.jobj (jset cfs "modes4"
          (.jarr (ms.filter (fun m => !(hasIdStr i m)))))))))) := by
  have hdel := delete_mode_eq hb hcs hms
  constructor
  · intro h
    rw [hdel, if_pos h]
  · intro h
    have hkept : ∀ m ∈ ms.filter (fun m => !(hasIdStr i m)), hasIdStr i m = false :=
      fun m hm => by simpa using (List.mem_filter.mp hm).2
    refine ⟨by rw [hdel, if_neg h], hkept, ?_⟩
    have hcs2 : jget (jset fs "composerState"
        (.jobj (jset cfs "modes4" (.jarr (ms.filter (fun m => !(hasIdStr i m)))))))
        "composerState" =
        some (.jobj (jset cfs "modes4" (.jarr (ms.filter (fun m => !(hasIdStr i m)))))) :=
      jget_jset_self _ _ _
    have hms2 : jget (jset cfs "modes4" (.jarr (ms.filter (fun m => !(hasIdStr i m)))))
        "modes4" = some (.jarr (ms.filter (fun m => !(hasIdStr i m)))) :=
      jget_jset_self _ _ _
    have hdel2 := delete_mode_eq hb hcs2 hms2
    rw [hdel2, if_pos]
    rw [List.filter_eq_self.mpr]
    intro m hm
    simpa using hkept m hm

/-- Witness for C7: deleting "c1" from the sample store removes it; the
second delete reports not-found with the store unchanged. -/
theorem delete_filters_and_idempotent_w :
    (builtin_ids.contains "c1" = false ∧
      ([mAgent, mC1].filter (fun m => !(hasIdStr "c1" m))).length ≠ [mAgent, mC1].length) ∧
    delete_mode sampleSt "c1" =
      (.ok, some (.jobj (jset sampleFs "composerState"
        (.jobj (jset sampleCfs "modes4" (.jarr [mAgent])))))) ∧
    delete_mode (some (.jobj (jset sampleFs "composerState"
        (.jobj (jset sampleCfs "modes4" (.jarr [mAgent])))))) "c1" =
      (.notFound, some (.jobj (jset sampleFs "composerState"
        (.jobj (jset sampleCfs "modes4" (.jarr [mAgent])))))) := by
  have h := delete_filters_and_idempotent sampleFs sampleCfs [mAgent, mC1] "c1"
    rfl rfl rfl rfl
  have h2 := h.2 (by decide)
  exact ⟨⟨rfl, by decide⟩, h2.1, h2.2.2⟩

/-- C1: after any successful mutating operation (import or delete), the
resulting document keeps every top-level field other than "composerState"
unchanged, and inside the composer state every field other than "modes4"
unchanged. -/
theorem mutation_preserves_frame (fs cfs : JObj) (ms : List JVal)
    (hcs : jget fs "composerState" = some (.jobj cfs))
    (hms : jget cfs "modes4" = some (.jarr ms))
    (hwf : ms.all isJObj = true) :
    (∀ (src : JVal) (o : Option String) (fr : String),
      (import_mode (some (.jobj fs)) src o fr).1.isOk = true →
      ∃ fs2 cfs2,
        (import_mode (some (.jobj fs)) src o fr).2 = some (.jobj fs2) ∧
        (∀ k, k ≠ "composerState" → jget fs2 k = jget fs k) ∧
        jget fs2 "composerState" = some (.jobj cfs2) ∧
        (∀ k, k ≠ "modes4" → jget cfs2 k = jget cfs k)) ∧
    (∀ i : String,
      (delete_mode (some (.jobj fs)) i).1.isOk = true →
      ∃ fs2 cfs2,
        (delete_mode (some (.jobj fs)) i).2 = some (.jobj fs2) ∧
        (∀ k, k ≠ "composerState" → jget fs2 k = jget fs k) ∧
        jget fs2 "composerState" = some (.jobj cfs2) ∧
        (∀ k, k ≠ "modes4" → jget cfs2 k = jget cfs k)) := by
  have key : ∀ L : List JVal,
      (∀ k, k ≠ "composerState" →
        jget (jset fs "composerState" (.jobj (jset cfs "modes4" (.jarr L)))) k = jget fs k) ∧
      jget (jset fs "composerState" (.jobj (jset cfs "modes4" (.jarr L)))) "composerState"
        = some (.jobj (jset cfs "modes4" (.jarr L))) ∧
      (∀ k, k ≠ "modes4" → jget (jset cfs "modes4" (.jarr L)) k = jget cfs k) :=
    fun L => ⟨fun k hk => jget_jset_ne hk _, jget_jset_self _ _ _,
      fun k hk => jget_jset_ne hk _⟩
  constructor
  · intro src o fr hok
    cases src with
    | jobj m0 =>
      cases hfm : firstMissing (resolveModeId m0 o fr) with
      | some fd =>
        have him : import_mode (some (.jobj fs)) (.jobj m0) o fr =
            (.missingField fd, some (.jobj fs)) := by
          rw [import_mode]
          simp [hfm]
        rw [him] at hok
        simp [ImportResult.isOk] at hok
      | none =>
        have him := import_mode_eq hcs hms hfm
        cases hidx : findModeIdx (jgetD (resolveModeId m0 o fr) "id" .jnull) ms with
        | some idx =>
          rw [hidx] at him
          rw [him]
          exact ⟨_, _, rfl, (key _).1, (key _).2.1, (key _).2.2⟩
        | none =>
          rw [hidx] at him
          rw [him]
          exact ⟨_, _, rfl, (key _).1, (key _).2.1, (key _).2.2⟩
    | jnull => simp [import_mode, ImportResult.isOk] at hok
    | jbool b => simp [import_mode, ImportResult.isOk] at hok
    | jnum n => simp [import_mode, ImportResult.isOk] at hok
    | jstr s => simp [import_mode, ImportResult.isOk] at hok
    | jarr xs => simp [import_mode, ImportResult.isOk] at hok
  · intro i hok
    by_cases hb : builtin_ids.contains i = true
    · have hd : delete_mode (some (.jobj fs)) i = (.builtinProtected, some (.jobj fs)) := by
        rw [delete_mode, if_pos hb]
      rw [hd] at hok
      simp [DeleteResult.isOk] at hok
    · have hb' : builtin_ids.contains i = false := by simpa using hb
      have hdel := delete_mode_eq hb' hcs hms
      by_cases hl : (ms.filter (fun m => !(hasIdStr i m))).length = ms.length
      · rw [hdel, if_pos hl] at hok
        simp [DeleteResult.isOk] at hok
      · rw [hdel, if_neg hl]
        exact ⟨_, _, rfl, (key _).1, (key _).2.1, (key _).2.2⟩

/-- Witness for C1: a successful delete on the sample store keeps the
unrelated top-level field and the unrelated nested field intact. -/
theorem mutation_preserves_frame_w :
    (jget sampleFs "composerState" = some (.jobj sampleCfs) ∧
      jget sampleCfs "modes4" = some (.jarr [mAgent, mC1]) ∧
      ([mAgent, mC1].all isJObj) = true ∧
      (delete_mode sampleSt "c1").1.isOk = true) ∧
    (∃ fs2 cfs2,
      (delete_mode sampleSt "c1").2 = some (.jobj fs2) ∧
      (∀ k, k ≠ "composerState" → jget fs2 k = jget sampleFs k) ∧
      jget fs2 "composerState" = some (.jobj cfs2) ∧
      (∀ k, k ≠ "modes4" → jget cfs2 k = jget sampleCfs k)) := by
  have hdel := delete_mode_eq (rfl : builtin_ids.contains "c1" = false)
    (rfl : jget sampleFs "composerState" = some (.jobj sampleCfs))
    (rfl : jget sampleCfs "modes4" = some (.jarr [mAgent, mC1]))
  rw [if_neg (by decide)] at hdel
  have hok : (delete_mode sampleSt "c1").1.isOk = true := by
    rw [show sampleSt = some (JVal.jobj sampleFs) from rfl, hdel]
    rfl
  have h := mutation_preserves_frame sampleFs sampleCfs [mAgent, mC1] rfl rfl rfl
  exact ⟨⟨rfl, rfl, rfl, hok⟩, h.2 "c1" hok⟩

/-- C6: exporting a stored, well-formed mode and importing the exported value
with no override keeps the mode unchanged when its id was non-empty (the
store itself is unchanged, still holding that mode under its id), and when
the original id was empty the import succeeds under the fresh id with every
field other than "id" deep-equal to the original. -/
theorem export_import_round_trip (fs cfs : JObj) (ms : List JVal) (mfs : JObj)
    (i f : String)
    (hcs : jget fs "composerState" = some (.jobj cfs))
    (hms : jget cfs "modes4" = some (.jarr ms))
    (hwf : ms.all isJObj = true)
    (hget : get_mode (some (.jobj fs)) i = some (.jobj mfs))
    (hval : firstMissing mfs = none) :
    export_mode (some (.jobj fs)) i = some (.jobj mfs) ∧
    (i ≠ "" →
      resolveModeId mfs none f = mfs ∧
      import_mode (some (.jobj fs)) (.jobj mfs) none f = (.ok true, some (.jobj fs)) ∧
      get_mode (some (.jobj fs)) i = some (.jobj mfs)) ∧
    (i = "" → ms.all (fun mm => !(hasIdStr f mm)) = true →
      import_mode (some (.jobj fs)) (.jobj mfs) none f =
        (.ok false, some (.jobj (jset fs "composerState" (.jobj (jset cfs "modes4"
          (.jarr (ms ++ [JVal.jobj (jset mfs "id" (.jstr f))]))))))) ∧
      get_mode (some (.jobj (jset fs "composerState" (.jobj (jset cfs "modes4"
          (.jarr (ms ++ [JVal.jobj (jset mfs "id" (.jstr f))]))))))) f =
        some (.jobj (jset mfs "id" (.jstr f))) ∧
      jget (jset mfs "id" (.jstr f)) "id" = some (.jstr f) ∧
      (∀ k, k ≠ "id" → jget (jset mfs "id" (.jstr f)) k = jget mfs k)) := by
  have hfind : ms.find? (hasIdStr i) = some (.jobj mfs) := by
    rw [get_mode_eq i hcs hms] at hget
    exact hget
  have hidm : jget mfs "id" = some (.jstr i) :=
    hasIdStr_jobj_iff.mp (List.find?_some hfind)
  refine ⟨hget, ?_, ?_⟩
  · intro hi
    have hres : resolveModeId mfs none f = mfs := by
      simp [resolveModeId, autoFreshId, hidm, pyTruthy, bne_iff_ne, hi]
    have hval' : firstMissing (resolveModeId mfs none f) = none := by
      rw [hres]
      exact hval
    have him := import_mode_eq hcs hms hval'
    have hmid : jgetD (resolveModeId mfs none f) "id" .jnull = .jstr i := by
      rw [hres, jgetD, hidm]
      rfl
    rw [hmid, findModeIdx_eq_firstIdx] at him
    obtain ⟨idx, hidx, hset⟩ := find?_firstIdx_set hfind
    rw [hidx, hres] at him
    have him2 : import_mode (some (.jobj fs)) (.jobj mfs) none f =
        (.ok true, some (.jobj (jset fs "composerState"
          (.jobj (jset cfs "modes4" (.jarr (ms.set idx (.jobj mfs)))))))) := him
    rw [hset, jset_eq_self hms, jset_eq_self hcs] at him2
    exact ⟨hres, him2, hget⟩
  · intro hi hfr
    subst hi
    have hres : resolveModeId mfs none f = jset mfs "id" (.jstr f) := by
      simp [resolveModeId, autoFreshId, hidm, pyTruthy]
    have hval' : firstMissing (resolveModeId mfs none f) = none := by
      rw [hres, firstMissing_jset_id]
      exact hval
    have him := import_mode_eq hcs hms hval'
    have hmid : jgetD (resolveModeId mfs none f) "id" .jnull = .jstr f := by
      rw [hres, jgetD, jget_jset_self]
      rfl
    rw [hmid, findModeIdx_eq_firstIdx] at him
    have hfalse : ∀ x ∈ ms, hasIdStr f x = false := by
      intro x hx
      have hb := List.all_eq_true.mp hfr x hx
      simpa using hb
    rw [firstIdx_eq_none hfalse, hres] at him
    refine ⟨him, ?_, jget_jset_self _ _ _, fun k hk => jget_jset_ne hk _⟩
    have hcs2 : jget (jset fs "composerState" (.jobj (jset cfs "modes4"
        (.jarr (ms ++ [JVal.jobj (jset mfs "id" (.jstr f))]))))) "composerState" =
        some (.jobj (jset cfs "modes4"
          (.jarr (ms ++ [JVal.jobj (jset mfs "id" (.jstr f))])))) :=
      jget_jset_self _ _ _
    have hms2 : jget (jset cfs "modes4"
        (.jarr (ms ++ [JVal.jobj (jset mfs "id" (.jstr f))]))) "modes4" =
        some (.jarr (ms ++ [JVal.jobj (jset mfs "id" (.jstr f))])) :=
      jget_jset_self _ _ _
    rw [get_mode_eq f hcs2 hms2, List.find?_append]
    have h1 : ms.find? (hasIdStr f) = none :=
      List.find?_eq_none.mpr fun x hx => by simp [hfalse x hx]
    have h2 : hasIdStr f (.jobj (jset mfs "id" (.jstr f))) = true :=
      hasIdStr_jobj_iff.mpr (jget_jset_self _ _ _)
    rw [h1, List.find?_cons_of_pos _ h2]
    rfl

/-- Witness for C6: round-tripping the stored custom mode "c1" leaves the
store unchanged and re-imports the very same mode. -/
theorem export_import_round_trip_w :
    (jget sampleFs "composerState" = some (.jobj sampleCfs) ∧
      jget sampleCfs "modes4" = some (.jarr [mAgent, mC1]) ∧
      ([mAgent, mC1].all isJObj) = true ∧
      get_mode sampleSt "c1" = some (.jobj [("id", .jstr "c1"), ("name", .jstr "Foo"),
        ("icon", .jstr "infinity"), ("thinkingLevel", .jstr "none"),
        ("autoRun", .jbool false), ("shouldAutoApplyIfNoEditTool", .jbool true),
        ("enabledTools", .jarr [.jnum 1, .jnum 3]), ("autoFix", .jbool true),
        ("enabledMcpServers", .jarr [])]) ∧
      firstMissing [("id", .jstr "c1"), ("name", .jstr "Foo"),
        ("icon", .jstr "infinity"), ("thinkingLevel", .jstr "none"),
        ("autoRun", .jbool false), ("shouldAutoApplyIfNoEditTool", .jbool true),
        ("enabledTools", .jarr [.jnum 1, .jnum 3]), ("autoFix", .jbool true),
        ("enabledMcpServers", .jarr [])] = none) ∧
    export_mode sampleSt "c1" = some mC1 ∧
    import_mode sampleSt (.jobj [("id", .jstr "c1"), ("name", .jstr "Foo"),
        ("icon", .jstr "infinity"), ("thinkingLevel", .jstr "none"),
        ("autoRun", .jbool false), ("shouldAutoApplyIfNoEditTool", .jbool true),
        ("enabledTools", .jarr [.jnum 1, .jnum 3]), ("autoFix", .jbool true),
        ("enabledMcpServers", .jarr [])]) none "u9" = (.ok true, sampleSt) ∧
    get_mode sampleSt "c1" = some mC1 := by
  have h := export_import_round_trip sampleFs sampleCfs [mAgent, mC1]
    [("id", .jstr "c1"), ("name", .jstr "Foo"),
      ("icon", .jstr "infinity"), ("thinkingLevel", .jstr "none"),
      ("autoRun", .jbool false), ("shouldAutoApplyIfNoEditTool", .jbool true),
      ("enabledTools", .jarr [.jnum 1, .jnum 3]), ("autoFix", .jbool true),
      ("enabledMcpServers", .jarr [])]
    "c1" "u9" rfl rfl rfl
    (by rw [get_mode_eq "c1" (rfl : jget sampleFs "composerState" = some (.jobj sampleCfs))
      (rfl : jget sampleCfs "modes4" = some (.jarr [mAgent, mC1]))]; rfl)
    rfl
  have h2 := h.2.1 (by decide)
  exact ⟨⟨rfl, rfl, rfl,
    by rw [show sampleSt = some (JVal.jobj sampleFs) from rfl,
      get_mode_eq "c1" (rfl : jget sampleFs "composerState" = some (.jobj sampleCfs))
      (rfl : jget sampleCfs "modes4" = some (.jarr [mAgent, mC1]))]; rfl, rfl⟩,
    h.1, h2.2.1, h2.2.2⟩

end ManageCustomModes
